import Mathlib

/-!
Verification development for the serena process-supervision core.

The definitions below are shallow embeddings of:
- `src/serena/tui/exec.py` (executable resolution, `run_capture`,
  `run_stream_lines`, background-task tracking),
- `src/solidlsp/util/subprocess_util.py` (`find_executable_in_path`),
- `src/solidlsp/language_servers/yaml_language_server.py`
  (`_setup_runtime_dependencies`, `_start_server`).

Host effects (PATH lookup, filesystem existence checks, the effect of the
npm install command, a child process's output stream and exit behaviour)
are passed in explicitly as oracle fields of environment structures, so
every definition is an executable function of those oracles.
-/

/-! ## Executable resolution

`ResolveEnv` packages the host observations the two Python resolvers make:
`which` models `shutil.which`, `pyDirContains` models the existence check
`(Path(sys.executable).resolve().parent / name).exists()`, `whereResult`
models the Windows-only shell lookup `where <name>` (the first line of its
stdout on success), and `isWindows` models both `os.name == "nt"` and
`platform.system() == "Windows"`. -/
structure ResolveEnv where
  isWindows : Bool
  which : String → Option String
  pyDir : String
  pyDirContains : String → Bool
  whereResult : String → Option String

/-- Embeds `_candidate_names` from `src/serena/tui/exec.py`: on Windows the
`.exe`-suffixed name is tried before the bare name. -/
def candidate_names (env : ResolveEnv) (base : String) : List String :=
  if env.isWindows then [base ++ ".exe", base] else [base]

/-- Path join used for the python-directory fallback candidate (separator
abstracted to "/"). -/
def pyJoin (env : ResolveEnv) (name : String) : String :=
  env.pyDir ++ "/" ++ name

/-- Embeds `find_executable` from `src/serena/tui/exec.py`: try PATH for each
candidate name, then fall back to the directory holding the running Python
binary. There is no shell-based lookup in this function. -/
def find_executable (env : ResolveEnv) (base : String) : Option String :=
  match (candidate_names env base).findSome? env.which with
  | some p => some p
  | none =>
    match (candidate_names env base).find? env.pyDirContains with
    | some n => some (pyJoin env n)
    | none => none

/-- Embeds `find_executable_in_path` from
`src/solidlsp/util/subprocess_util.py`: `shutil.which` on the bare name, then
on Windows only a shell `where` lookup. The host binary's directory is never
consulted here. -/
def find_executable_in_path (env : ResolveEnv) (exe_name : String) : Option String :=
  match env.which exe_name with
  | some p => some p
  | none => if env.isWindows then env.whereResult exe_name else none

/-- Modelled from the spec: the single three-step resolver claim C3 describes
(PATH with suffixed-before-bare candidates, then the host binary's directory,
then on Windows a shell `where` lookup; not-found only when all three fail).
No function in the source implements all three steps; this definition follows
the claim's words and exists only to be compared with the source resolvers. -/
def resolve_spec (env : ResolveEnv) (base : String) : Option String :=
  match (candidate_names env base).findSome? env.which with
  | some p => some p
  | none =>
    match (candidate_names env base).find? env.pyDirContains with
    | some n => some (pyJoin env n)
    | none => if env.isWindows then env.whereResult base else none

/-- An environment in which only the Windows shell lookup can see the tool:
PATH misses, the python directory misses, `where` succeeds. -/
def envWhereOnly : ResolveEnv :=
  { isWindows := true
    which := fun _ => none
    pyDir := "C:/py"
    pyDirContains := fun _ => false
    whereResult := fun _ => some "C:/tools/tool.exe" }

/-- An environment in which only the python-directory fallback can see the
tool: PATH misses, `where` misses, the python directory has it. -/
def envPyDirOnly : ResolveEnv :=
  { isWindows := true
    which := fun _ => none
    pyDir := "C:/py"
    pyDirContains := fun _ => true
    whereResult := fun _ => none }

/-- An environment in which PATH finds every candidate. -/
def envPathHit : ResolveEnv :=
  { isWindows := true
    which := fun _ => some "C:/bin/tool.exe"
    pyDir := "C:/py"
    pyDirContains := fun _ => false
    whereResult := fun _ => none }

/-- Two otherwise identical non-Windows environments that differ only in the
`whereResult` oracle, which `find_executable` never consults. -/
def envDetA : ResolveEnv :=
  { isWindows := false
    which := fun _ => none
    pyDir := "/usr/lib/venv/bin"
    pyDirContains := fun n => n == "tool"
    whereResult := fun _ => none }

def envDetB : ResolveEnv :=
  { isWindows := false
    which := fun _ => none
    pyDir := "/usr/lib/venv/bin"
    pyDirContains := fun n => n == "tool"
    whereResult := fun _ => some "/weird/tool" }

/-! ## UTF-8 decoding with replacement

Both `run_capture` and the pump in `run_stream_lines` decode child output
with `bytes.decode(errors="replace")`. The decoder below follows CPython's
UTF-8 codec under that error handler: a valid sequence yields its scalar, an
invalid or truncated sequence yields one U+FFFD for its maximal valid subpart
(at least the lead byte), a stray byte yields one U+FFFD. It is total on
arbitrary byte lists, including bytes outside 0..255. -/

def replacementChar : Char := Char.ofNat 0xFFFD

/-- Is `b` a UTF-8 continuation byte (0x80..0xBF)? -/
def isCont (b : Nat) : Bool := 0x80 ≤ b && b ≤ 0xBF

/-- Result of decoding one character: the character produced and how many
continuation bytes (beyond the lead byte) were consumed. -/
structure DecodeStep where
  char : Char
  used : Nat
deriving Repr, DecidableEq

/-- Decode one character from lead byte `b` followed by `rest`, per CPython's
UTF-8 codec with the replace error handler. -/
def decode1 (b : Nat) (rest : List Nat) : DecodeStep :=
  if b < 0x80 then ⟨Char.ofNat b, 0⟩
  else if 0xC2 ≤ b && b ≤ 0xDF then
    match rest with
    | c1 :: _ =>
      if isCont c1 then ⟨Char.ofNat ((b - 0xC0) * 64 + (c1 - 0x80)), 1⟩
      else ⟨replacementChar, 0⟩
    | [] => ⟨replacementChar, 0⟩
  else if 0xE0 ≤ b && b ≤ 0xEF then
    let lo := if b = 0xE0 then 0xA0 else 0x80
    let hi := if b = 0xED then 0x9F else 0xBF
    match rest with
    | c1 :: c2 :: _ =>
      if lo ≤ c1 && c1 ≤ hi then
        if isCont c2 then
          ⟨Char.ofNat ((b - 0xE0) * 4096 + (c1 - 0x80) * 64 + (c2 - 0x80)), 2⟩
        else ⟨replacementChar, 1⟩
      else ⟨replacementChar, 0⟩
    | [c1] => if lo ≤ c1 && c1 ≤ hi then ⟨replacementChar, 1⟩ else ⟨replacementChar, 0⟩
    | [] => ⟨replacementChar, 0⟩
  else if 0xF0 ≤ b && b ≤ 0xF4 then
    let lo := if b = 0xF0 then 0x90 else 0x80
    let hi := if b = 0xF4 then 0x8F else 0xBF
    match rest with
    | c1 :: c2 :: c3 :: _ =>
      if lo ≤ c1 && c1 ≤ hi then
        if isCont c2 then
          if isCont c3 then
            ⟨Char.ofNat ((b - 0xF0) * 262144 + (c1 - 0x80) * 4096 + (c2 - 0x80) * 64 + (c3 - 0x80)), 3⟩
          else ⟨replacementChar, 2⟩
        else ⟨replacementChar, 1⟩
      else ⟨replacementChar, 0⟩
    | [c1, c2] =>
      if lo ≤ c1 && c1 ≤ hi then
        (if isCont c2 then ⟨replacementChar, 2⟩ else ⟨replacementChar, 1⟩)
      else ⟨replacementChar, 0⟩
    | [c1] => if lo ≤ c1 && c1 ≤ hi then ⟨replacementChar, 1⟩ else ⟨replacementChar, 0⟩
    | [] => ⟨replacementChar, 0⟩
  else ⟨replacementChar, 0⟩

/-- Scan the byte list, pairing every decoded character with the exact bytes
it consumed. Each step consumes the lead byte plus `(decode1 b rest).used`
continuation bytes, so every input byte lands in exactly one chunk. -/
def decodeChunks : List Nat → List (Char × List Nat)
  | [] => []
  | b :: rest =>
    ((decode1 b rest).char, b :: rest.take (decode1 b rest).used)
      :: decodeChunks (rest.drop (decode1 b rest).used)
termination_by bs => bs.length
decreasing_by
  simp only [List.length_cons, List.length_drop]
  omega

/-- Embeds `out.decode(errors="replace")`: the character stream of the scan. -/
def decodeReplace (bs : List Nat) : List Char :=
  (decodeChunks bs).map Prod.fst

/-! ## Streaming supervisor: `run_capture`

`run_capture` (src/serena/tui/exec.py lines 52-85) spawns the child with
combined stdout+stderr, reads the stream to EOF under `asyncio.wait_for`
when a timeout is given, and in a `finally` block reaps the child: it waits
up to a 1-second grace for a natural exit and otherwise kills and waits.
If the read timed out, `asyncio.TimeoutError` propagates out of the
function after the reap, so the captured bytes are discarded.

A child's observable behaviour is abstracted by `Child`: its combined
output bytes, the time at which the stream reaches EOF, whether it exits
within the reap grace period, and its natural exit code. -/

structure Child where
  output : List Nat
  eofAt : Nat
  exitsWithinGrace : Bool
  exitCode : Int
deriving Repr, DecidableEq

/-- Exit code reported by `proc.wait()` after `proc.kill()` (SIGKILL). -/
def killedExitCode : Int := -9

/-- Outcome of one `run_capture` call: the value returned or the timeout
error raised, plus whether the child was reaped and whether it was killed. -/
structure CaptureOutcome where
  result : Except Unit (Int × List Char)
  reaped : Bool
  killed : Bool
deriving Repr

/-- Embeds `run_capture`. With no timeout, or with EOF reached by the
deadline, the decoded output and the reaped exit code are returned. When the
deadline elapses first, the `finally` block still reaps (killing when the
child does not exit within the grace period), and the timeout error
propagates, discarding the captured bytes. -/
def run_capture (c : Child) (timeout_s : Option Nat) : CaptureOutcome :=
  let rc : Int := if c.exitsWithinGrace then c.exitCode else killedExitCode
  let killed := !c.exitsWithinGrace
  match timeout_s with
  | none => ⟨.ok (rc, decodeReplace c.output), true, killed⟩
  | some t =>
    if c.eofAt ≤ t then ⟨.ok (rc, decodeReplace c.output), true, killed⟩
    else ⟨.error (), true, killed⟩

/-! ## Streaming supervisor: `run_stream_lines` and its pump

The pump loop calls `proc.stdout.readline()`, which yields chunks ending in
a newline byte (0x0A) plus possibly a final chunk without one, and stops at
the empty read. Each chunk is decoded with replacement and its trailing
newlines are stripped before the callback sees it. -/

/-- Accumulator worker for splitting a byte stream into readline chunks:
bytes up to and including each 0x0A, plus any final partial chunk. -/
def splitNlGo : List Nat → List Nat → List (List Nat)
  | [], acc => if acc.isEmpty then [] else [acc.reverse]
  | b :: rest, acc =>
    if b = 10 then (acc.reverse ++ [10]) :: splitNlGo rest []
    else splitNlGo rest (b :: acc)

/-- The sequence of chunks `readline` yields for a given byte stream. -/
def splitAfterNewline (bs : List Nat) : List (List Nat) :=
  splitNlGo bs []

/-- Embeds `.rstrip("\n")` on a decoded line: strip trailing newline
characters. A readline chunk carries at most one. -/
def rstripNewlines (s : List Char) : List Char :=
  ((s.reverse.dropWhile (fun c => c = Char.ofNat 10)).reverse)

/-- The lines delivered to `on_line` by the pump of `run_stream_lines` for a
child whose combined output is `bs`. -/
def pump_lines (bs : List Nat) : List (List Char) :=
  (splitAfterNewline bs).map (fun chunk => rstripNewlines (decodeReplace chunk))

/-! ## Background-task tracking

`_BACKGROUND_TASKS` is a module-global set; `_track_background_task` adds a
task and registers `discard` as its done callback. `run_stream_lines`
creates the pump task, tracks it, and returns the process handle without
awaiting the pump; under the event loop's cooperative scheduling nothing of
the pump has run when the handle is returned. The supervisor state below
records the tracked set and the set of not-yet-completed pump tasks; task
identity is abstracted to a natural number. -/

structure SupState where
  tasks : Finset Nat
  running : Finset Nat
deriving DecidableEq

/-- The supervisor state before any stream has been started. -/
def supInit : SupState := ⟨∅, ∅⟩

/-- Embeds the body of `run_stream_lines` at the task-tracking level: the
pump task `id` is created (now in flight) and `_track_background_task` adds
it to the tracked set; the process handle is returned at once, while the
pump has not finished. -/
def run_stream_lines_model (s : SupState) (id : Nat) : SupState × Nat :=
  ({ tasks := insert id s.tasks, running := insert id s.running }, id)

/-- Events the tracked-task set reacts to: a `run_stream_lines` call spawning
a pump task, or a pump task completing, which fires the done callback
`_BACKGROUND_TASKS.discard`. -/
inductive SupEv where
  | spawn (id : Nat)
  | complete (id : Nat)
deriving Repr, DecidableEq

def applyEv (s : SupState) : SupEv → SupState
  | .spawn id => (run_stream_lines_model s id).1
  | .complete id => { tasks := s.tasks.erase id, running := s.running.erase id }

/-- Run a sequence of supervisor events from a state. -/
def runEvs (s : SupState) (evs : List SupEv) : SupState :=
  evs.foldl applyEv s

/-! ## Dependency installer

`YamlLanguageServer._setup_runtime_dependencies` asserts node and npm are on
PATH, computes the deterministic marker path
`<resources>/yaml-lsp/node_modules/.bin/yaml-language-server` (plus `.cmd`
on Windows), installs only when the marker is absent, re-checks the marker,
and returns the launch command `"<marker> --stdio"`. The effect of
`deps.install` (the npm install command) on the filesystem is an oracle
`install`; the filesystem itself is the set of existing paths. -/

structure InstallEnv where
  isWindows : Bool
  resourcesDir : String
  nodeFound : Bool
  npmFound : Bool
  install : (String → Bool) → (String → Bool)

/-- Path separator used by `os.path.join` on the host. -/
def hostSep (env : InstallEnv) : String :=
  if env.isWindows then "\\" else "/"

def ospath_join (env : InstallEnv) (a b : String) : String :=
  a ++ hostSep env ++ b

/-- Embeds `yaml_ls_dir = os.path.join(cls.ls_resources_dir(...), "yaml-lsp")`. -/
def yaml_ls_dir (env : InstallEnv) : String :=
  ospath_join env env.resourcesDir "yaml-lsp"

/-- Embeds the marker path: `os.path.join(yaml_ls_dir, "node_modules",
".bin", "yaml-language-server")`, with `.cmd` appended on Windows. -/
def yaml_executable_path (env : InstallEnv) : String :=
  let p := ospath_join env (ospath_join env (yaml_ls_dir env) "node_modules") ".bin"
  let p := ospath_join env p "yaml-language-server"
  if env.isWindows then p ++ ".cmd" else p

/-- Errors `_setup_runtime_dependencies` can raise: a failed node/npm assert,
or the post-install marker re-check failure (a `FileNotFoundError`, the
error the spec's taxonomy calls `InstallationError`) carrying its message. -/
inductive SetupError where
  | nodeMissing
  | npmMissing
  | markerMissing (msg : String)
deriving Repr, DecidableEq

/-- Outcome of one `_setup_runtime_dependencies` call: the returned launch
command or raised error, the filesystem afterwards, and how many times the
install command ran. -/
structure SetupResult where
  result : Except SetupError String
  fs : String → Bool
  installs : Nat

/-- Embeds `_setup_runtime_dependencies`. -/
def setup_runtime_dependencies (env : InstallEnv) (fs : String → Bool) : SetupResult :=
  if !env.nodeFound then ⟨.error .nodeMissing, fs, 0⟩
  else if !env.npmFound then ⟨.error .npmMissing, fs, 0⟩
  else
    let path := yaml_executable_path env
    let step := if fs path then (fs, 0) else (env.install fs, 1)
    if step.1 path then ⟨.ok (path ++ " --stdio"), step.1, step.2⟩
    else
      ⟨.error (.markerMissing
          ("yaml-language-server executable not found at " ++ path
            ++ ", something went wrong with the installation.")),
        step.1, step.2⟩

/-! ## Concurrent installer calls

The source takes no lock between its `os.path.exists(yaml_executable_path)`
check and the `deps.install(yaml_ls_dir)` call (the only `threading` object
in the module is the `server_ready` event), so two concurrent callers may
interleave freely between those two filesystem operations. Each caller's
behaviour is the check-then-install fragment of
`setup_runtime_dependencies`. -/

/-- One caller's install action given what its marker check observed. -/
def caller_install_if_absent (env : InstallEnv) (sawAbsent : Bool)
    (fs : String → Bool) : (String → Bool) × Nat :=
  if sawAbsent then (env.install fs, 1) else (fs, 0)

/-- The interleaving in which both callers run their marker check before
either runs the install command; legal because the source holds no lock
between the two operations. Returns the final filesystem and the total
number of install-command executions. -/
def concurrent_two_callers_checks_first (env : InstallEnv)
    (fs0 : String → Bool) : (String → Bool) × Nat :=
  let marker := yaml_executable_path env
  let saw1 := !(fs0 marker)
  let saw2 := !(fs0 marker)
  let step1 := caller_install_if_absent env saw1 fs0
  let step2 := caller_install_if_absent env saw2 step1.1
  (step2.1, step1.2 + step2.2)

/-- The fully sequential schedule: caller one checks and installs, then
caller two checks (observing caller one's effect) and installs. -/
def sequential_two_callers (env : InstallEnv)
    (fs0 : String → Bool) : (String → Bool) × Nat :=
  let marker := yaml_executable_path env
  let step1 := caller_install_if_absent env (!(fs0 marker)) fs0
  let step2 := caller_install_if_absent env (!(step1.1 marker)) step1.1
  (step2.1, step1.2 + step2.2)

/-- Marker path of `cexInstallEnv` (non-Windows, resources dir "res"). -/
def cexMarkerPath : String :=
  "res/yaml-lsp/node_modules/.bin/yaml-language-server"

/-- A concrete install environment whose install command creates exactly the
expected marker. -/
def cexInstallEnv : InstallEnv :=
  { isWindows := false
    resourcesDir := "res"
    nodeFound := true
    npmFound := true
    install := fun fs p => p == cexMarkerPath || fs p }

/-- A concrete install environment whose install command has no effect on
the filesystem (a failed installation). -/
def noopInstallEnv : InstallEnv :=
  { isWindows := false
    resourcesDir := "res"
    nodeFound := true
    npmFound := true
    install := fun fs => fs }

/-! ## Session start sequence

`YamlLanguageServer._start_server` is straight-line code with a single
branch on whether the initialize response's capabilities object contains
the key "documentSymbolProvider". Its observable actions, in program order,
form the trace below. Handler registrations happen before the process is
even started; the only messages sent are the initialize request and the
initialized notification; the readiness events come last. Log levels use
the stdlib numeric values (debug 10, info 20, warning 30). -/

inductive StartEvent where
  | onRequest (method : String)
  | onNotification (method : String)
  | startProcess
  | sendInitialize
  | sendInitializedNote
  | logMsg (level : Nat) (msg : String)
  | setServerReady
  | setCompletionsAvailable
deriving Repr, DecidableEq

/-- Embeds `_start_server`, parametrised by the branch condition
`"documentSymbolProvider" in init_response["capabilities"]`. -/
def start_server_trace (hasDocumentSymbolProvider : Bool) : List StartEvent :=
  [ .onRequest "client/registerCapability",
    .onNotification "window/logMessage",
    .onNotification "$/progress",
    .onNotification "textDocument/publishDiagnostics",
    .logMsg 20 "Starting YAML server process",
    .startProcess,
    .logMsg 20 "Sending initialize request from LSP client to LSP server and awaiting response",
    .sendInitialize,
    .logMsg 10 "Received initialize response from YAML server",
    (if hasDocumentSymbolProvider then
      StartEvent.logMsg 20 "YAML server supports document symbols"
    else
      StartEvent.logMsg 30 "Warning: YAML server does not report document symbol support"),
    .sendInitializedNote,
    .logMsg 20 "YAML server initialization complete",
    .setServerReady,
    .setCompletionsAvailable ]

/-- Is this event a message sent to the backend? -/
def isSendEvent : StartEvent → Bool
  | .sendInitialize => true
  | .sendInitializedNote => true
  | _ => false

/-- Is this event a request or notification handler registration? -/
def isHandlerRegistration : StartEvent → Bool
  | .onRequest _ => true
  | .onNotification _ => true
  | _ => false

/-- Is this event a log emission? -/
def isLogEvent : StartEvent → Bool
  | .logMsg _ _ => true
  | _ => false

/-- Is this event a warning-level log emission? -/
def isWarningLog : StartEvent → Bool
  | .logMsg 30 _ => true
  | _ => false

/-! ## Helper lemmas -/

/-- The chunks of the decoding scan partition the input: their concatenation
is exactly the byte stream, so no byte is dropped by the decode. -/
theorem decodeChunks_join : ∀ bs : List Nat, ((decodeChunks bs).map Prod.snd).flatten = bs
  | [] => by simp [decodeChunks]
  | b :: rest => by
    have ih := decodeChunks_join (rest.drop (decode1 b rest).used)
    rw [decodeChunks]
    simp only [List.map_cons, List.flatten_cons, ih, List.cons_append, List.take_append_drop]
termination_by bs => bs.length
decreasing_by
  simp only [List.length_cons, List.length_drop]
  omega

/-- Every chunk of the decoding scan is nonempty: each output character
accounts for at least one input byte. -/
theorem decodeChunks_nonempty :
    ∀ bs : List Nat, (decodeChunks bs).all (fun p => !(p.2.isEmpty)) = true
  | [] => by simp [decodeChunks]
  | b :: rest => by
    have ih := decodeChunks_nonempty (rest.drop (decode1 b rest).used)
    rw [decodeChunks]
    simp [ih]
termination_by bs => bs.length
decreasing_by
  simp only [List.length_cons, List.length_drop]
  omega

/-- The readline chunking partitions the stream around the accumulator. -/
theorem splitNlGo_join (bs : List Nat) :
    ∀ acc, (splitNlGo bs acc).flatten = acc.reverse ++ bs := by
  induction bs with
  | nil =>
    intro acc
    cases acc <;> simp [splitNlGo]
  | cons b rest ih =>
    intro acc
    by_cases hb : b = 10
    · subst hb
      simp [splitNlGo, ih []]
    · simp [splitNlGo, hb, ih (b :: acc)]

/-- The readline chunks cover the whole byte stream: every byte reaches the
pump in exactly one chunk. -/
theorem splitAfterNewline_join (bs : List Nat) : (splitAfterNewline bs).flatten = bs := by
  simpa using splitNlGo_join bs []

/-- A successful `setup_runtime_dependencies` call leaves the marker present
in the resulting filesystem. -/
theorem setup_ok_marker (env : InstallEnv) (fs : String → Bool) (s : String)
    (h : (setup_runtime_dependencies env fs).result = .ok s) :
    (setup_runtime_dependencies env fs).fs (yaml_executable_path env) = true := by
  unfold setup_runtime_dependencies at *
  by_cases hn : env.nodeFound
  · by_cases hm : env.npmFound
    · simp only [hn, hm, Bool.not_true, Bool.false_eq_true, if_false] at *
      by_cases hs : (if fs (yaml_executable_path env) then (fs, 0)
          else (env.install fs, 1)).1 (yaml_executable_path env)
      · simp [hs]
      · simp [hs] at h
    · simp [hn, hm] at h
  · simp [hn] at h

/-- One supervisor event preserves the invariant that every in-flight pump
task is in the tracked set. -/
theorem applyEv_preserves_tracked (s : SupState) (e : SupEv)
    (h : s.running ⊆ s.tasks) : (applyEv s e).running ⊆ (applyEv s e).tasks := by
  cases e with
  | spawn id =>
    simpa [applyEv, run_stream_lines_model] using Finset.insert_subset_insert id h
  | complete id =>
    simpa [applyEv] using Finset.erase_subset_erase id h

/-- Any sequence of supervisor events preserves the tracking invariant. -/
theorem runEvs_preserves_tracked (evs : List SupEv) :
    ∀ s : SupState, s.running ⊆ s.tasks → (runEvs s evs).running ⊆ (runEvs s evs).tasks := by
  induction evs with
  | nil => intro s h; simpa [runEvs] using h
  | cons e rest ih =>
    intro s h
    simpa [runEvs] using ih (applyEv s e) (applyEv_preserves_tracked s e h)

/-! ## Claims -/

/-- C1 (counterexample): on a child that is still producing output when the
1-unit timeout elapses (stream EOF only at time 5), `run_capture` does not
return an (exitCode, output) pair: the timeout error propagates to the
caller, refuting the claim that it returns normally with the captured
output. -/
theorem run_capture_timeout_raises_cex :
    (run_capture ⟨[104, 105], 5, false, 0⟩ (some 1)).result = Except.error () := rfl

/-- C1 (amended): if the child's combined stream has not reached EOF when
`timeout_s` elapses, `run_capture` always reaps the child — killing it when
it does not exit within the reap grace period — but it raises the timeout
error instead of returning, and the output captured before the timeout is
discarded. -/
theorem run_capture_timeout_reaps_but_raises (c : Child) (t : Nat)
    (h : t < c.eofAt) :
    (run_capture c (some t)).result = Except.error () ∧
    (run_capture c (some t)).reaped = true ∧
    (run_capture c (some t)).killed = !c.exitsWithinGrace := by
  have hle : ¬ c.eofAt ≤ t := Nat.not_le.mpr h
  refine ⟨?_, ?_, ?_⟩ <;> simp [run_capture, hle]

/-- C1 (witness for the amended theorem): the concrete sleeping child. -/
theorem run_capture_timeout_reaps_but_raises_witness :
    (1 : Nat) < 5 ∧
    ((run_capture ⟨[104, 105], 5, false, 0⟩ (some 1)).result = Except.error () ∧
      (run_capture ⟨[104, 105], 5, false, 0⟩ (some 1)).reaped = true ∧
      (run_capture ⟨[104, 105], 5, false, 0⟩ (some 1)).killed = !(false : Bool)) :=
  ⟨by decide, run_capture_timeout_reaps_but_raises ⟨[104, 105], 5, false, 0⟩ 1 (by decide)⟩

/-- C2 (counterexample): with the marker initially absent, the interleaving
in which both callers run their marker check before either installs — legal
because the source takes no lock between the check and the install — runs
the install command twice, not exactly once as the claim states. -/
theorem concurrent_install_double_execution_cex :
    (concurrent_two_callers_checks_first cexInstallEnv (fun _ => false)).2 = 2 ∧
    (concurrent_two_callers_checks_first cexInstallEnv (fun _ => false)).2 ≠ 1 := by
  constructor
  · rfl
  · intro h
    simp [concurrent_two_callers_checks_first, caller_install_if_absent] at h

/-- C2 (amended): the installer does not serialize concurrent calls for the
same target directory. With the marker initially absent and an install
command that creates it, the checks-first interleaving of two concurrent
callers executes the install command twice, while the fully sequential
schedule executes it exactly once; single-flight is not provided. -/
theorem install_not_single_flight (env : InstallEnv) (fs0 : String → Bool)
    (habs : fs0 (yaml_executable_path env) = false)
    (hinst : (env.install fs0) (yaml_executable_path env) = true) :
    (concurrent_two_callers_checks_first env fs0).2 = 2 ∧
    (sequential_two_callers env fs0).2 = 1 := by
  constructor
  · simp [concurrent_two_callers_checks_first, caller_install_if_absent, habs]
  · simp [sequential_two_callers, caller_install_if_absent, habs, hinst]

/-- C2 (witness for the amended theorem): the concrete environment whose
install command creates the marker. -/
theorem install_not_single_flight_witness :
    ((fun _ => false) (yaml_executable_path cexInstallEnv) = false) ∧
    ((cexInstallEnv.install (fun _ => false)) (yaml_executable_path cexInstallEnv) = true) ∧
    ((concurrent_two_callers_checks_first cexInstallEnv (fun _ => false)).2 = 2 ∧
      (sequential_two_callers cexInstallEnv (fun _ => false)).2 = 1) :=
  ⟨rfl, by rfl, install_not_single_flight cexInstallEnv (fun _ => false) rfl (by rfl)⟩

/-- C3 (counterexample): no source resolver performs all three claimed
steps. In `envWhereOnly` only the Windows shell lookup can see the tool, and
`find_executable` — which has no shell fallback — reports not-found although
the claimed three-step search would succeed; in `envPyDirOnly` only the host
binary's directory has the tool, and `find_executable_in_path` — which never
consults that directory — reports not-found although the claimed search
would succeed. -/
theorem resolver_missing_steps_cex :
    find_executable envWhereOnly "tool" = none ∧
    resolve_spec envWhereOnly "tool" = some "C:/tools/tool.exe" ∧
    find_executable_in_path envPyDirOnly "tool" = none ∧
    resolve_spec envPyDirOnly "tool" = some "C:/py/tool.exe" :=
  ⟨rfl, rfl, rfl, rfl⟩

/-- C3 (amended): the code has two resolvers, each implementing a fixed
two-step subset of the claimed order. `find_executable` searches PATH —
trying the `.exe`-suffixed name before the bare name on Windows — and then
the directory of the running host binary, and reports not-found exactly when
both of those locations fail (it never runs a shell lookup);
`find_executable_in_path` searches PATH by the bare name and then, on
Windows only, a shell `where` lookup, and reports not-found exactly when
those locations fail (it never checks the host binary's directory). First
match wins in both. -/
theorem resolvers_search_order (env : ResolveEnv) (base : String) :
    (env.isWindows = true → ∀ p, env.which (base ++ ".exe") = some p →
        find_executable env base = some p) ∧
    (find_executable env base = none ↔
        ∀ n ∈ candidate_names env base, env.which n = none ∧ env.pyDirContains n = false) ∧
    (∀ p, env.which base = some p → find_executable_in_path env base = some p) ∧
    (find_executable_in_path env base = none ↔
        env.which base = none ∧ (env.isWindows = true → env.whereResult base = none)) := by
  refine ⟨?_, ?_, ?_, ?_⟩
  · intro hwin p hp
    simp [find_executable, candidate_names, hwin, List.findSome?_cons, hp]
  · cases hw : env.isWindows
    · cases h1 : env.which base <;> cases h2 : env.pyDirContains base <;>
        simp [find_executable, candidate_names, hw, h1, h2, List.findSome?_cons, List.find?]
    · cases h1 : env.which (base ++ ".exe") <;> cases h2 : env.which base <;>
        cases h3 : env.pyDirContains (base ++ ".exe") <;> cases h4 : env.pyDirContains base <;>
        simp [find_executable, candidate_names, hw, h1, h2, h3, h4, List.findSome?_cons,
          List.find?]
  · intro p hp
    simp [find_executable_in_path, hp]
  · cases hw : env.isWindows
    · cases h1 : env.which base <;> simp [find_executable_in_path, hw, h1]
    · cases h1 : env.which base <;> cases h5 : env.whereResult base <;>
        simp [find_executable_in_path, hw, h1, h5]

/-- C3 (witness for the amended theorem): PATH finds the suffixed candidate
in `envPathHit`, so `find_executable` returns it. -/
theorem resolvers_search_order_witness :
    envPathHit.isWindows = true ∧
    envPathHit.which ("tool" ++ ".exe") = some "C:/bin/tool.exe" ∧
    find_executable envPathHit "tool" = some "C:/bin/tool.exe" :=
  ⟨rfl, rfl, (resolvers_search_order envPathHit "tool").1 rfl "C:/bin/tool.exe" rfl⟩

/-- C4: when node and npm are present, a successful return implies the
marker exists in the resulting filesystem (never silent success without the
marker), and if the marker is still absent after the install step the call
fails with the installation error whose message names the exact expected
marker path. -/
theorem setup_marker_checked_after_install (env : InstallEnv) (fs : String → Bool)
    (hn : env.nodeFound = true) (hm : env.npmFound = true) :
    (∀ s, (setup_runtime_dependencies env fs).result = .ok s →
        (setup_runtime_dependencies env fs).fs (yaml_executable_path env) = true) ∧
    ((setup_runtime_dependencies env fs).fs (yaml_executable_path env) = false →
        (setup_runtime_dependencies env fs).result = .error (.markerMissing
          ("yaml-language-server executable not found at " ++ yaml_executable_path env
            ++ ", something went wrong with the installation."))) := by
  refine ⟨fun s h => setup_ok_marker env fs s h, ?_⟩
  intro habs
  unfold setup_runtime_dependencies at *
  simp only [hn, hm, Bool.not_true, Bool.false_eq_true, if_false] at *
  by_cases hs : (if fs (yaml_executable_path env) then (fs, 0)
      else (env.install fs, 1)).1 (yaml_executable_path env)
  · simp [hs] at habs
  · simp [hs]

/-- C4 (witness): with an install command that creates nothing and an empty
filesystem, the marker stays absent and the exact-path error is raised. -/
theorem setup_marker_checked_after_install_witness :
    noopInstallEnv.nodeFound = true ∧ noopInstallEnv.npmFound = true ∧
    (setup_runtime_dependencies noopInstallEnv (fun _ => false)).fs
      (yaml_executable_path noopInstallEnv) = false ∧
    (setup_runtime_dependencies noopInstallEnv (fun _ => false)).result =
      .error (.markerMissing
        ("yaml-language-server executable not found at "
          ++ yaml_executable_path noopInstallEnv
          ++ ", something went wrong with the installation.")) :=
  ⟨rfl, rfl, rfl,
    (setup_marker_checked_after_install noopInstallEnv (fun _ => false) rfl rfl).2 rfl⟩

/-- C5: when node and npm are present and the marker already exists, the
call returns the launch command built from the known marker path at once,
with zero install-command executions and an unchanged filesystem; and after
any successful call, a second call performs zero install-command executions
(idempotence). -/
theorem setup_idempotent_fast_path (env : InstallEnv) (fs : String → Bool)
    (hn : env.nodeFound = true) (hm : env.npmFound = true) :
    (fs (yaml_executable_path env) = true →
        setup_runtime_dependencies env fs =
          ⟨.ok (yaml_executable_path env ++ " --stdio"), fs, 0⟩) ∧
    (∀ s, (setup_runtime_dependencies env fs).result = .ok s →
        (setup_runtime_dependencies env
          (setup_runtime_dependencies env fs).fs).installs = 0) := by
  constructor
  · intro h
    simp [setup_runtime_dependencies, hn, hm, h]
  · intro s h
    have hmarker := setup_ok_marker env fs s h
    generalize hg : (setup_runtime_dependencies env fs).fs = fs2
    rw [hg] at hmarker
    simp [setup_runtime_dependencies, hn, hm, hmarker]

/-- C5 (witness): a filesystem already holding the marker takes the fast
path with zero installs. -/
theorem setup_idempotent_fast_path_witness :
    cexInstallEnv.nodeFound = true ∧ cexInstallEnv.npmFound = true ∧
    ((fun p => p == cexMarkerPath) (yaml_executable_path cexInstallEnv) = true) ∧
    setup_runtime_dependencies cexInstallEnv (fun p => p == cexMarkerPath) =
      ⟨.ok (yaml_executable_path cexInstallEnv ++ " --stdio"),
        (fun p => p == cexMarkerPath), 0⟩ :=
  ⟨rfl, rfl, by rfl,
    (setup_idempotent_fast_path cexInstallEnv (fun p => p == cexMarkerPath) rfl rfl).1 (by rfl)⟩

/-- C9: `find_executable` is deterministic — its result depends only on the
platform flag, the PATH lookup results for the candidate names, the host
binary's directory and its contents; two environments agreeing on those
observations (here differing in the never-consulted shell-lookup oracle)
yield identical results. -/
theorem find_executable_deterministic (env1 env2 : ResolveEnv) (base : String)
    (hwin : env1.isWindows = env2.isWindows)
    (hwhich : ∀ n ∈ candidate_names env1 base, env1.which n = env2.which n)
    (hdir : env1.pyDir = env2.pyDir)
    (hcont : ∀ n ∈ candidate_names env1 base, env1.pyDirContains n = env2.pyDirContains n) :
    find_executable env1 base = find_executable env2 base := by
  cases hw : env1.isWindows with
  | false =>
    have hw2 : env2.isWindows = false := hwin.symm.trans hw
    have hwhichb := hwhich base (by simp [candidate_names, hw])
    have hcontb := hcont base (by simp [candidate_names, hw])
    simp [find_executable, candidate_names, hw, hw2, List.findSome?_cons, List.find?,
      hwhichb, hcontb, pyJoin, hdir]
  | true =>
    have hw2 : env2.isWindows = true := hwin.symm.trans hw
    have hwhiche := hwhich (base ++ ".exe") (by simp [candidate_names, hw])
    have hwhichb := hwhich base (by simp [candidate_names, hw])
    have hconte := hcont (base ++ ".exe") (by simp [candidate_names, hw])
    have hcontb := hcont base (by simp [candidate_names, hw])
    simp [find_executable, candidate_names, hw, hw2, List.findSome?_cons, List.find?,
      hwhiche, hwhichb, hconte, hcontb, pyJoin, hdir]

/-- C9 (witness): `envDetA` and `envDetB` agree on every observation
`find_executable` makes and differ in the shell-lookup oracle; the results
coincide. -/
theorem find_executable_deterministic_witness :
    envDetA.isWindows = envDetB.isWindows ∧
    envDetA.pyDir = envDetB.pyDir ∧
    find_executable envDetA "tool" = find_executable envDetB "tool" :=
  ⟨rfl, rfl,
    find_executable_deterministic envDetA envDetB "tool" rfl (fun _ _ => rfl) rfl
      (fun _ _ => rfl)⟩

/-- C6: in every execution of the start sequence (both branches of the
capability check), once a message has been sent no handler registration
occurs — all request and notification handlers are registered before any
message is sent — and the first message sent on the transport is the
initialize request. -/
theorem start_server_handlers_before_sends (b : Bool) :
    ((start_server_trace b).dropWhile (fun e => !isSendEvent e)).all
        (fun e => !isHandlerRegistration e) = true ∧
    ((start_server_trace b).filter isSendEvent).head? = some StartEvent.sendInitialize := by
  cases b <;> exact ⟨rfl, rfl⟩

/-- C7: whichever way the capability check goes, the start sequence performs
exactly the same non-log actions — in particular the initialized
notification is sent and the readiness signal set in both branches; the
missing-flag branch emits a warning log while the other branch emits no
warning at all, so capability validation is soft and never a hard failure. -/
theorem start_server_soft_capability_check (b : Bool) :
    (start_server_trace b).filter (fun e => !isLogEvent e) =
      (start_server_trace true).filter (fun e => !isLogEvent e) ∧
    StartEvent.sendInitializedNote ∈ start_server_trace b ∧
    StartEvent.setServerReady ∈ start_server_trace b ∧
    (start_server_trace false).any isWarningLog = true ∧
    (start_server_trace true).all (fun e => !isWarningLog e) = true := by
  cases b <;> refine ⟨rfl, ?_, ?_, rfl, rfl⟩ <;> simp [start_server_trace]

/-- C8: `run_stream_lines` hands back the process handle while the pump task
is still in flight and already a member of the tracked set; across any
sequence of spawns and completions from the initial state, every in-flight
pump task stays in the tracked set (it cannot be silently discarded); and a
task's completion removes it from the set via its done callback. -/
theorem stream_lines_task_tracking :
    (∀ (s : SupState) (id : Nat),
        (run_stream_lines_model s id).2 = id ∧
        id ∈ ((run_stream_lines_model s id).1).tasks ∧
        id ∈ ((run_stream_lines_model s id).1).running) ∧
    (∀ evs : List SupEv, (runEvs supInit evs).running ⊆ (runEvs supInit evs).tasks) ∧
    (∀ (s : SupState) (id : Nat), id ∉ (applyEv s (.complete id)).tasks) := by
  refine ⟨fun s id => ⟨rfl, ?_, ?_⟩,
    fun evs => runEvs_preserves_tracked evs supInit (by simp [supInit]),
    fun s id => ?_⟩
  · exact Finset.mem_insert_self id s.tasks
  · exact Finset.mem_insert_self id s.running
  · simp [applyEv]

/-- C8 (witness): a freshly spawned pump task is tracked. -/
theorem stream_lines_task_tracking_witness :
    7 ∈ ((run_stream_lines_model supInit 7).1).tasks :=
  (stream_lines_task_tracking.1 supInit 7).2.1

/-- C10: decoding with replacement is total on every byte list (including
invalid UTF-8) and drops nothing: the chunks consumed by the decoder
concatenate back to the input and each decoded character accounts for at
least one byte, so every byte of a `run_capture` stream is represented in
the captured output; the readline chunks concatenate back to the input, so
every byte of a `run_stream_lines` stream reaches the pump, whose delivered
lines are the total decode of each chunk with only its trailing newline
delimiter stripped. `run_capture` without a timeout returns the decoded
output rather than any decoding error. -/
theorem decode_replace_total_coverage (bs : List Nat) :
    decodeReplace bs = (decodeChunks bs).map Prod.fst ∧
    ((decodeChunks bs).map Prod.snd).flatten = bs ∧
    (decodeChunks bs).all (fun p => !(p.2.isEmpty)) = true ∧
    (splitAfterNewline bs).flatten = bs ∧
    (run_capture ⟨bs, 0, true, 0⟩ none).result = Except.ok (0, decodeReplace bs) ∧
    pump_lines bs =
      (splitAfterNewline bs).map (fun chunk => rstripNewlines (decodeReplace chunk)) :=
  ⟨rfl, decodeChunks_join bs, decodeChunks_nonempty bs, splitAfterNewline_join bs, rfl, rfl⟩
